import Mathlib

/-!
Verification of the guarded-motion primitives of the herbpy repository.

The definitions below are a shallow embedding of the Python source:
* `src/herbpy/wam.py` — `WAM.Servo`, `WAM.ServoTo`, `WAM.MoveUntilTouch`
  (the simulated forward-execution loop, lines 313–358);
* `src/herbpy/barretthand.py` — `BarrettHand.MoveHand`.

Machine reals (numpy float arrays) are modelled as rationals; OpenRAVE
trajectories are lists of waypoints carrying a delta-time field, exactly
as the source builds them with `InsertDeltaTime`.  External collaborators
(the planner, the collision checker) enter as function parameters.
-/

namespace HerbPy

/-- A joint-space configuration: one rational per controlled DOF
(`numpy` array of DOF values in the source). -/
abbrev JointVector := List ℚ

/-- One trajectory waypoint, as the source stores it: a delta-time from
the previous waypoint (`InsertDeltaTime`, wam.py lines 349–351) and the
joint values. -/
structure Waypoint where
  deltaTime : ℚ
  values : JointVector
deriving Repr, DecidableEq

/-- An OpenRAVE-style timed trajectory: waypoints with delta-times.
The first waypoint of a well-formed trajectory has delta-time 0
(as the source writes it at wam.py line 349). -/
abbrev Trajectory := List Waypoint

/-- `traj.GetDuration()`: the sum of the delta-times. -/
def duration (traj : Trajectory) : ℚ :=
  (traj.map Waypoint.deltaTime).sum

/-- Waypoints with absolute timestamps, accumulated from the delta-times
starting at time `t0`. -/
def absWaypoints : Trajectory → ℚ → List (ℚ × JointVector)
  | [], _ => []
  | w :: ws, t0 => (t0 + w.deltaTime, w.values) :: absWaypoints ws (t0 + w.deltaTime)

/-- Linear interpolation between two joint vectors at parameter `s`. -/
def interp (v0 v1 : JointVector) (s : ℚ) : JointVector :=
  List.zipWith (fun a b => a + s * (b - a)) v0 v1

/-- OpenRAVE's `traj.Sample(t)` with linear interpolation over waypoints
carrying absolute timestamps: clamp before the first and after the last
waypoint, interpolate linearly between the bracketing pair otherwise. -/
def sampleAbs : List (ℚ × JointVector) → ℚ → JointVector
  | [], _ => []
  | [(_, v0)], _ => v0
  | (t0, v0) :: (t1, v1) :: rest, t =>
    if t ≤ t0 then v0
    else if t ≤ t1 then interp v0 v1 ((t - t0) / (t1 - t0))
    else sampleAbs ((t1, v1) :: rest) t

/-- `traj.Sample(t)` on a delta-time trajectory (wam.py line 326). -/
def trajSample (traj : Trajectory) (t : ℚ) : JointVector :=
  sampleAbs (absWaypoints traj 0) t

/-- The number of elements of `numpy.arange(0, D, dt)`: `⌈D/dt⌉` (the
endpoint `D` is excluded), and 0 when `D ≤ 0`. -/
def numSamples (D dt : ℚ) : ℕ :=
  (Int.ceil (D / dt)).toNat

/-- `numpy.arange(0, D, dt)` (wam.py line 325): the sample times
`0, dt, 2·dt, …` strictly below `D`. -/
def sampleTimes (D dt : ℚ) : List ℚ :=
  List.map (fun i : ℕ => (i : ℚ) * dt) (List.range (numSamples D dt))

/-- The Path Sampler: the sequence of joint-vector samples the
forward-simulation loop of `MoveUntilTouch` draws from a trajectory at
control period `dt` (wam.py lines 325–326). -/
def sampleSeq (traj : Trajectory) (dt : ℚ) : List JointVector :=
  (sampleTimes (duration traj) dt).map (trajSample traj)

/-- Strictly increasing timestamps on the delta-time representation:
every waypoint after the first advances time by a positive amount. -/
def strictlyTimed (traj : Trajectory) : Prop :=
  ∀ w ∈ traj.tail, 0 < w.deltaTime

instance (traj : Trajectory) : Decidable (strictlyTimed traj) := by
  unfold strictlyTimed; infer_instance

/-- The stopping reasons distinguishable in the forward-simulation loop:
the two collision branches of wam.py lines 334–345 (each logs its own
message), plus the force/torque threshold the spec's Guard Evaluator
names (see `evalGuardsFull`). -/
inductive HaltReason
  | EnvironmentCollision
  | SelfCollision
  | ForceThreshold
deriving Repr, DecidableEq

/-- The per-step guard check of wam.py lines 332–345: the environment
collision check runs first (`env.CheckCollision`, line 334), the
self-collision check only in its `elif` branch (line 340). -/
def evalCollisionGuards (envTrips selfTrips : Bool) : Option HaltReason :=
  if envTrips then some HaltReason.EnvironmentCollision
  else if selfTrips then some HaltReason.SelfCollision
  else none

/-- Modelled from the spec: the full Guard Evaluator of §4.4 with a
force/torque guard.  No force/torque guard exists in src — the real-robot
path raises `NotImplementedError` (wam.py lines 119–120 and 309–311) and
the simulated loop checks only collisions — so the force guard's place
after the two collision guards follows the spec's fixed priority list;
the relative order of the two collision guards is the source's. -/
def evalGuardsFull (envTrips selfTrips forceTrips : Bool) : Option HaltReason :=
  if envTrips then some HaltReason.EnvironmentCollision
  else if selfTrips then some HaltReason.SelfCollision
  else if forceTrips then some HaltReason.ForceThreshold
  else none

/-- The state the forward-simulation loop of `MoveUntilTouch` exits
with: the `is_collision` flag, the branch it broke from, the built
prefix trajectory `new_traj`, and the robot's DOF values (standing for
its link transformations) at exit. -/
structure LoopResult where
  is_collision : Bool
  reason : Option HaltReason
  new_traj : Trajectory
  robotDofs : JointVector
deriving Repr, DecidableEq

/-- The forward-simulation loop of `MoveUntilTouch` (wam.py lines
325–353), one step per sample time: sample the trajectory, apply the
sample to the robot (`SetDOFValues`, line 330), break on environment or
self collision, otherwise append the sample to `new_traj` — delta-time 0
for the first inserted waypoint, `dt` afterwards (lines 348–353). -/
def forwardLoop (envC selfC : JointVector → Bool) (traj : Trajectory) (dt : ℚ) :
    JointVector → Trajectory → List ℚ → LoopResult
  | dofs, acc, [] => ⟨false, none, acc, dofs⟩
  | _, acc, t :: ts =>
    let wp := trajSample traj t
    match evalCollisionGuards (envC wp) (selfC wp) with
    | some r => ⟨true, some r, acc, wp⟩
    | none =>
      forwardLoop envC selfC traj dt wp
        (acc ++ [⟨if acc.isEmpty then 0 else dt, wp⟩]) ts

/-- The `robot.CreateRobotStateSaver(LinkTransformation)` context of
wam.py lines 321–324: the robot's link state captured on entry is
restored when the `with` block exits, whatever the body did to it. -/
def withLinkTransformSaver (r0 : JointVector) (body : JointVector → LoopResult) :
    LoopResult :=
  let res := body r0
  { res with robotDofs := r0 }

/-- The control period hard-coded at wam.py line 259. -/
def delta_t : ℚ := 1 / 100

/-- The whole forward-simulation phase of `MoveUntilTouch` (wam.py lines
321–353): the sampling/collision loop run under the link-transformation
state saver. -/
def forwardSimPhase (envC selfC : JointVector → Bool) (r0 : JointVector)
    (traj : Trajectory) : LoopResult :=
  withLinkTransformSaver r0 (fun r =>
    forwardLoop envC selfC traj delta_t r [] (sampleTimes (duration traj) delta_t))

/-- `robot.ExecuteTrajectory(tr)` abstracted to its effect on the joint
state: the robot ends at the trajectory's last waypoint (unchanged on an
empty trajectory). -/
def execTrajectory (r : JointVector) (tr : Trajectory) : JointVector :=
  ((tr.getLast?).map Waypoint.values).getD r

/-- What a `MoveUntilTouch` call yields in the simulated branch: the
returned `is_collision` flag (wam.py line 358), the trajectory passed to
`ExecuteTrajectory` if any (lines 355–356), and the robot's final joint
state. -/
structure MUTOutcome where
  felt_force : Bool
  executedCall : Option Trajectory
  robotFinal : JointVector
deriving Repr, DecidableEq

/-- The errors `MoveUntilTouch` can raise after planning: only the
`NotImplementedError` of the non-simulated branch (wam.py lines
309–311).  There is no validation-failure path. -/
inductive MUTError
  | notImplemented
deriving Repr, DecidableEq

/-- The simulated branch of `MoveUntilTouch` (wam.py lines 313–358).
`traj` stands for `PostProcessPath(PlanToEndEffectorOffset(direction,
distance, max_distance))`, the external planner's output; `distance` and
`max_distance` are consumed only by that external call and never by the
loop.  The phase runs under the state saver, then `ExecuteTrajectory` is
called only when `new_traj` is non-empty (lines 355–356). -/
def MoveUntilTouch (envC selfC : JointVector → Bool) (r0 : JointVector)
    (distance max_distance : ℚ) (traj : Trajectory) : MUTOutcome :=
  let p := forwardSimPhase envC selfC r0 traj
  if 0 < p.new_traj.length then
    ⟨p.is_collision, some p.new_traj, execTrajectory p.robotDofs p.new_traj⟩
  else
    ⟨p.is_collision, none, p.robotDofs⟩

/-- `MoveUntilTouch` with the simulated/real dispatch of wam.py lines
307–313: the non-simulated branch raises `NotImplementedError`. -/
def MoveUntilTouchDispatch (simulated : Bool) (envC selfC : JointVector → Bool)
    (r0 : JointVector) (distance max_distance : ℚ) (traj : Trajectory) :
    Except MUTError MUTOutcome :=
  if !simulated then Except.error MUTError.notImplemented
  else Except.ok (MoveUntilTouch envC selfC r0 distance max_distance traj)

/-- The errors `WAM.Servo` can raise: the `ValueError` of the DOF-count
check (wam.py lines 126–130) and the `NotImplementedError` of the
non-simulated branch (lines 132–134), the latter being the spec's
`UnsupportedMode`. -/
inductive ServoError
  | wrongLength
  | notImplemented
deriving Repr, DecidableEq

/-- The WAM manipulator state `Servo` touches: the `simulated` flag set
at construction (wam.py line 51), the arm DOF count
(`len(self.GetArmIndices())`), and the velocity last streamed to the
servo simulator. -/
structure WAMState where
  simulated : Bool
  numDof : ℕ
  servoVelocity : Option JointVector
deriving Repr, DecidableEq

/-- `WAM.Servo` (wam.py lines 122–137): reject a wrong-length velocity
vector, reject the non-simulated mode, otherwise stream the velocities
to the servo simulator. -/
def Servo (m : WAMState) (velocities : JointVector) : Except ServoError WAMState :=
  if velocities.length ≠ m.numDof then Except.error ServoError.wrongLength
  else if !m.simulated then Except.error ServoError.notImplemented
  else Except.ok { m with servoVelocity := some velocities }

/-- A BarrettHand preshape: the four hand DOFs in the source's fixed
order finger 1, finger 2, finger 3, spread (barretthand.py
`GetIndices`). -/
structure Preshape where
  f1 : ℚ
  f2 : ℚ
  f3 : ℚ
  spread : ℚ
deriving Repr, DecidableEq

/-- `BarrettHand.MoveHand` (barretthand.py lines 115–139) up to the
`SetDesired` call: each argument left as `None` defaults to the current
DOF value read at call time (`curr_pos = self.GetDOFValues()`); the
result is the preshape commanded to the controller. -/
def MoveHand (curr_pos : Preshape) (f1 f2 f3 spread : Option ℚ) : Preshape where
  f1 := match f1 with | some v => v | none => curr_pos.f1
  f2 := match f2 with | some v => v | none => curr_pos.f2
  f3 := match f3 with | some v => v | none => curr_pos.f3
  spread := match spread with | some v => v | none => curr_pos.spread

/-! Concrete instances used by witnesses and counterexamples. -/

/-- A 10-waypoint trajectory spanning 1.0 s: waypoint values run linearly
from `[0]` to `[1]`, so `trajSample traj10 t = [t]` on `[0, 1]`. -/
def traj10 : Trajectory :=
  [⟨0, [0]⟩, ⟨1/9, [1/9]⟩, ⟨1/9, [2/9]⟩, ⟨1/9, [3/9]⟩, ⟨1/9, [4/9]⟩,
   ⟨1/9, [5/9]⟩, ⟨1/9, [6/9]⟩, ⟨1/9, [7/9]⟩, ⟨1/9, [8/9]⟩, ⟨1/9, [1]⟩]

/-- An environment-collision checker that trips exactly once the first
joint reaches 2/5: on `traj10` at `dt = 1/10` this is the 5th sample. -/
def envC10 : JointVector → Bool :=
  fun wp => decide ((2 : ℚ)/5 ≤ wp.headD 0)

/-- A self-collision checker that never trips. -/
def selfC10 : JointVector → Bool := fun _ => false

/-- The first four sample times of `traj10` at `dt = 1/10`, before the
tripping one. -/
def times10Before : List ℚ := [0, 1/10, 2/10, 3/10]

/-- The sample times of `traj10` at `dt = 1/10` after the tripping one. -/
def times10After : List ℚ := [5/10, 6/10, 7/10, 8/10, 9/10]

/-- A two-waypoint trajectory of duration 1, from `[0]` to `[1]`. -/
def traj2 : Trajectory := [⟨0, [0]⟩, ⟨1, [1]⟩]

/-- A short trajectory of duration 1/10 whose displacement stands for
the 0.3 m < 0.5 m scenario of the distance claim. -/
def trajC5 : Trajectory := [⟨0, [0]⟩, ⟨1/10, [3/10]⟩]

/-- A guard that never trips, for the guard-free runs. -/
def noTrip : JointVector → Bool := fun _ => false

/-! Helper lemmas about the forward-simulation loop. -/

/-- If no guard trips on any remaining sample time, the loop runs to the
end: no collision is reported and every sample is appended to the built
trajectory. -/
lemma forwardLoop_no_trip (envC selfC : JointVector → Bool) (traj : Trajectory)
    (dt : ℚ) :
    ∀ (ts : List ℚ) (dofs : JointVector) (acc : Trajectory),
      (∀ t ∈ ts, evalCollisionGuards (envC (trajSample traj t))
        (selfC (trajSample traj t)) = none) →
      (forwardLoop envC selfC traj dt dofs acc ts).is_collision = false ∧
      (forwardLoop envC selfC traj dt dofs acc ts).new_traj.length =
        acc.length + ts.length := by
  intro ts
  induction ts with
  | nil =>
    intro dofs acc _
    simp [forwardLoop]
  | cons t ts ih =>
    intro dofs acc h
    have ht := h t (List.mem_cons_self t ts)
    have hrest : ∀ u ∈ ts, evalCollisionGuards (envC (trajSample traj u))
        (selfC (trajSample traj u)) = none :=
      fun u hu => h u (List.mem_cons_of_mem t hu)
    have step := ih (trajSample traj t)
      (acc ++ [⟨if acc.isEmpty then 0 else dt, trajSample traj t⟩]) hrest
    simp only [forwardLoop, ht]
    refine ⟨step.1, ?_⟩
    rw [step.2]
    simp
    omega

/-- If the guards stay silent on the sample times `ante` and trip with
reason `r` at time `t`, the loop halts there: `is_collision` is set, the
reason is `r`, and the built trajectory holds exactly the samples of
`ante`, the tripping sample excluded. -/
lemma forwardLoop_halt (envC selfC : JointVector → Bool) (traj : Trajectory)
    (dt : ℚ) :
    ∀ (ante : List ℚ) (t : ℚ) (post : List ℚ) (dofs : JointVector)
      (acc : Trajectory) (r : HaltReason),
      (∀ u ∈ ante, evalCollisionGuards (envC (trajSample traj u))
        (selfC (trajSample traj u)) = none) →
      evalCollisionGuards (envC (trajSample traj t))
        (selfC (trajSample traj t)) = some r →
      (forwardLoop envC selfC traj dt dofs acc (ante ++ t :: post)).is_collision
          = true ∧
      (forwardLoop envC selfC traj dt dofs acc (ante ++ t :: post)).reason
          = some r ∧
      (forwardLoop envC selfC traj dt dofs acc
          (ante ++ t :: post)).new_traj.length = acc.length + ante.length ∧
      (forwardLoop envC selfC traj dt dofs acc
          (ante ++ t :: post)).new_traj.map Waypoint.values =
        acc.map Waypoint.values ++ ante.map (trajSample traj) := by
  intro ante
  induction ante with
  | nil =>
    intro t post dofs acc r _ ht
    simp only [List.nil_append, forwardLoop, ht]
    simp
  | cons u ante ih =>
    intro t post dofs acc r h ht
    have hu := h u (List.mem_cons_self u ante)
    have hrest : ∀ u' ∈ ante, evalCollisionGuards (envC (trajSample traj u'))
        (selfC (trajSample traj u')) = none :=
      fun u' hu' => h u' (List.mem_cons_of_mem u hu')
    have step := ih t post (trajSample traj u)
      (acc ++ [⟨if acc.isEmpty then 0 else dt, trajSample traj u⟩]) r hrest ht
    simp only [List.cons_append, forwardLoop, hu]
    simp only [List.append_eq]
    refine ⟨step.1, step.2.1, ?_, ?_⟩
    · rw [step.2.2.1]
      simp
      omega
    · rw [step.2.2.2]
      simp

/-- Sampling at time 0 a trajectory whose first waypoint carries
delta-time 0 yields the first waypoint's values exactly. -/
lemma trajSample_zero (w : Waypoint) (ws : Trajectory) (h0 : w.deltaTime = 0) :
    trajSample (w :: ws) 0 = w.values := by
  unfold trajSample
  simp only [absWaypoints, h0, add_zero]
  cases hws : absWaypoints ws 0 with
  | nil => simp [sampleAbs]
  | cons p rest => simp [sampleAbs]

/-- The returned `felt_force` flag of `MoveUntilTouch` is the loop's
`is_collision` flag, whichever `ExecuteTrajectory` branch is taken. -/
lemma moveUntilTouch_felt (envC selfC : JointVector → Bool) (r0 : JointVector)
    (distance max_distance : ℚ) (traj : Trajectory) :
    (MoveUntilTouch envC selfC r0 distance max_distance traj).felt_force =
      (forwardSimPhase envC selfC r0 traj).is_collision := by
  simp only [MoveUntilTouch]
  split <;> rfl

/-! Claim theorems. -/

/-- C1: when a collision guard trips at a sample of the guarded
forward-simulation loop, the outcome is halted (`is_collision = true`)
and the built output trajectory holds exactly the samples applied before
the trip — the samples of `ante` — and excludes the tripping sample.
Its length is the number of earlier samples; tripping at the 5th sample
gives length 4 (see the witness). -/
theorem halt_keeps_only_earlier_samples (envC selfC : JointVector → Bool)
    (traj : Trajectory) (dt : ℚ) (r0 : JointVector) (ante : List ℚ) (t : ℚ)
    (post : List ℚ) (r : HaltReason)
    (hts : sampleTimes (duration traj) dt = ante ++ t :: post)
    (hante : ∀ u ∈ ante, evalCollisionGuards (envC (trajSample traj u))
      (selfC (trajSample traj u)) = none)
    (ht : evalCollisionGuards (envC (trajSample traj t))
      (selfC (trajSample traj t)) = some r) :
    (forwardLoop envC selfC traj dt r0 []
        (sampleTimes (duration traj) dt)).is_collision = true ∧
    (forwardLoop envC selfC traj dt r0 []
        (sampleTimes (duration traj) dt)).new_traj.length = ante.length ∧
    (forwardLoop envC selfC traj dt r0 []
        (sampleTimes (duration traj) dt)).new_traj.map Waypoint.values =
      ante.map (trajSample traj) := by
  rw [hts]
  have h := forwardLoop_halt envC selfC traj dt ante t post r0 [] r hante ht
  refine ⟨h.1, ?_, ?_⟩
  · rw [h.2.2.1]; simp
  · rw [h.2.2.2]; simp

/-- Witness for C1: `traj10` spans 1.0 s; at `dt = 1/10` the collision
guard `envC10` trips exactly at the 5th sample (time 4/10), and the
executed output trajectory has length 4. -/
theorem halt_keeps_only_earlier_samples_witness :
    (forwardLoop envC10 selfC10 traj10 (1/10) [0] []
        (sampleTimes (duration traj10) (1/10))).is_collision = true ∧
    (forwardLoop envC10 selfC10 traj10 (1/10) [0] []
        (sampleTimes (duration traj10) (1/10))).new_traj.length = 4 := by
  have h := halt_keeps_only_earlier_samples envC10 selfC10 traj10 (1/10) [0]
    times10Before (4/10) times10After HaltReason.EnvironmentCollision
    (by with_unfolding_all decide) (by with_unfolding_all decide)
    (by with_unfolding_all decide)
  exact ⟨h.1, h.2.1⟩

/-- C2 counterexample: on the two-waypoint trajectory `traj2` of
duration 1 (strictly increasing timestamps) with `Δt = 1/2 > 0`, the
sampler yields 2 samples, not `⌈duration/Δt⌉ + 1 = 3`: `numpy.arange`
excludes the endpoint. -/
theorem sampler_length_plus_one_false :
    strictlyTimed traj2 ∧ (0 : ℚ) < 1/2 ∧
    (sampleSeq traj2 (1/2)).length = 2 ∧
    ¬ ((sampleSeq traj2 (1/2)).length =
        (Int.ceil (duration traj2 / (1/2 : ℚ))).toNat + 1) := by
  refine ⟨by decide, by norm_num, by with_unfolding_all decide,
    by with_unfolding_all decide⟩

/-- C2 (amended): for a trajectory with strictly increasing timestamps
starting at time 0 and positive duration, and any control period
`dt > 0`, the sampler yields exactly `⌈duration/dt⌉` samples (endpoint
excluded) and the first sample equals the first waypoint exactly. -/
theorem sampler_length_and_first (w : Waypoint) (ws : Trajectory) (dt : ℚ)
    (hstrict : strictlyTimed (w :: ws)) (h0 : w.deltaTime = 0)
    (hD : 0 < duration (w :: ws)) (hdt : 0 < dt) :
    (sampleSeq (w :: ws) dt).length =
      (Int.ceil (duration (w :: ws) / dt)).toNat ∧
    (sampleSeq (w :: ws) dt).head? = some w.values := by
  constructor
  · simp only [sampleSeq, sampleTimes, numSamples, List.length_map,
      List.length_range]
  · have hn : 1 ≤ numSamples (duration (w :: ws)) dt := by
      unfold numSamples
      have hpos : (0 : ℚ) < duration (w :: ws) / dt := div_pos hD hdt
      have h1 : (0 : ℤ) < Int.ceil (duration (w :: ws) / dt) :=
        Int.ceil_pos.mpr hpos
      omega
    obtain ⟨m, hm⟩ : ∃ m, numSamples (duration (w :: ws)) dt = m + 1 :=
      ⟨numSamples (duration (w :: ws)) dt - 1, by omega⟩
    unfold sampleSeq sampleTimes
    rw [hm, List.range_succ_eq_map, List.map_cons, List.map_cons,
      List.head?_cons]
    norm_num
    exact trajSample_zero w ws h0

/-- Witness for C2 (amended): on `traj2` with `dt = 1/2` the sampler
yields `⌈1/(1/2)⌉ = 2` samples and starts with the first waypoint
`[0]`. -/
theorem sampler_length_and_first_witness :
    (sampleSeq traj2 (1/2)).length =
      (Int.ceil (duration traj2 / (1/2 : ℚ))).toNat ∧
    (sampleSeq traj2 (1/2)).head? = some [(0 : ℚ)] :=
  sampler_length_and_first ⟨0, [0]⟩ [⟨1, [1]⟩] (1/2) (by decide) (by decide)
    (by norm_num [duration, Waypoint.deltaTime]) (by norm_num)

/-- C3: on a tick where the environment-collision guard trips, the loop
halts with reason `EnvironmentCollision` even when the self-collision
guard trips on the same tick — the environment check runs first and its
reason wins; likewise on the spec-modelled full evaluator
`evalGuardsFull`, a simultaneously tripping force/torque guard never
outranks `EnvironmentCollision`. -/
theorem collision_reason_priority (envC selfC : JointVector → Bool)
    (traj : Trajectory) (dt : ℚ) (dofs : JointVector) (acc : Trajectory)
    (t : ℚ) (ts : List ℚ)
    (henv : envC (trajSample traj t) = true)
    (hself : selfC (trajSample traj t) = true) :
    (forwardLoop envC selfC traj dt dofs acc (t :: ts)).reason =
      some HaltReason.EnvironmentCollision ∧
    evalGuardsFull true true true = some HaltReason.EnvironmentCollision ∧
    evalGuardsFull true false true = some HaltReason.EnvironmentCollision := by
  refine ⟨?_, rfl, rfl⟩
  simp [forwardLoop, evalCollisionGuards, henv]

/-- Witness for C3: on `traj10` at the tripping time 4/10, with the
environment guard and the (identical) self guard both tripping, the
reported reason is `EnvironmentCollision`. -/
theorem collision_reason_priority_witness :
    (forwardLoop envC10 envC10 traj10 (1/10) [0] [] [(4 : ℚ)/10]).reason =
      some HaltReason.EnvironmentCollision ∧
    evalGuardsFull true true true = some HaltReason.EnvironmentCollision ∧
    evalGuardsFull true false true = some HaltReason.EnvironmentCollision :=
  collision_reason_priority envC10 envC10 traj10 (1/10) [0] [] (4/10) []
    (by with_unfolding_all decide) (by with_unfolding_all decide)

/-- C4 counterexample: calling `MoveUntilTouch` in simulation on the
empty trajectory is NOT rejected with a validation failure — it returns
the ordinary outcome (`ok`, not `error`): no collision felt, no
`ExecuteTrajectory` call, robot untouched. -/
theorem empty_traj_not_rejected :
    MoveUntilTouchDispatch true envC10 selfC10 [0] (1/2) 1 [] =
      Except.ok ⟨false, none, [0]⟩ ∧
    MoveUntilTouchDispatch true envC10 selfC10 [0] (1/2) 1 [] ≠
      Except.error MUTError.notImplemented := by
  constructor
  · with_unfolding_all rfl
  · intro h
    rw [show MoveUntilTouchDispatch true envC10 selfC10 [0] (1/2) 1 [] =
        Except.ok ⟨false, none, [0]⟩ from by with_unfolding_all rfl] at h
    exact Except.noConfusion h

/-- C4 (amended): an empty (zero-length) trajectory is never executed —
the loop issues no sample and `ExecuteTrajectory` is never called — but
it is not rejected with a validation failure: the simulated call returns
normally, reporting no collision and leaving the robot where it was. -/
theorem empty_traj_never_executed (envC selfC : JointVector → Bool)
    (r0 : JointVector) (distance max_distance : ℚ) :
    MoveUntilTouchDispatch true envC selfC r0 distance max_distance [] =
      Except.ok ⟨false, none, r0⟩ := by
  have hdur : duration [] = 0 := rfl
  have hnum : numSamples (duration []) delta_t = 0 := by
    unfold numSamples
    rw [hdur]
    norm_num
  unfold MoveUntilTouchDispatch MoveUntilTouch forwardSimPhase
    withLinkTransformSaver sampleTimes
  rw [hnum]
  rfl

/-- C5: with a minimum-distance requirement `distance` that the motion
does not reach (`traveled < distance`) and no collision guard tripping
on any sample, `MoveUntilTouch` completes: the dispatch returns `ok`
(not a failure) and the felt-force flag is `false` (not halted) — the
executor never judges insufficient distance as a failure; `distance`
never enters the loop. -/
theorem insufficient_distance_still_completes (envC selfC : JointVector → Bool)
    (r0 : JointVector) (distance max_distance traveled : ℚ) (traj : Trajectory)
    (htraveled : traveled < distance)
    (hguards : ∀ t ∈ sampleTimes (duration traj) delta_t,
      evalCollisionGuards (envC (trajSample traj t))
        (selfC (trajSample traj t)) = none) :
    MoveUntilTouchDispatch true envC selfC r0 distance max_distance traj =
      Except.ok (MoveUntilTouch envC selfC r0 distance max_distance traj) ∧
    (MoveUntilTouch envC selfC r0 distance max_distance traj).felt_force
      = false := by
  refine ⟨rfl, ?_⟩
  rw [moveUntilTouch_felt]
  exact (forwardLoop_no_trip envC selfC traj delta_t
    (sampleTimes (duration traj) delta_t) r0 [] hguards).1

/-- Witness for C5: a trajectory whose displacement stands for 0.3 m
against a 0.5 m minimum, with never-tripping guards: the outcome is the
ordinary completion with `felt_force = false`. -/
theorem insufficient_distance_still_completes_witness :
    MoveUntilTouchDispatch true noTrip noTrip [0] (1/2) 1 trajC5 =
      Except.ok (MoveUntilTouch noTrip noTrip [0] (1/2) 1 trajC5) ∧
    (MoveUntilTouch noTrip noTrip [0] (1/2) 1 trajC5).felt_force = false :=
  insufficient_distance_still_completes noTrip noTrip [0] (1/2) 1 (3/10) trajC5
    (by norm_num) (by with_unfolding_all decide)

/-- C6: the Path Sampler is deterministic — two runs on equal
`(Trajectory, Δt)` inputs produce identical sample sequences; the
sampler is a pure function of the trajectory and the control period. -/
theorem sampler_deterministic (ta tb : Trajectory) (da db : ℚ)
    (htraj : ta = tb) (hdt : da = db) :
    sampleSeq ta da = sampleSeq tb db := by
  rw [htraj, hdt]

/-- Witness for C6: two runs on `(traj10, 1/10)` agree. -/
theorem sampler_deterministic_witness :
    sampleSeq traj10 (1/10) = sampleSeq traj10 (1/10) :=
  sampler_deterministic traj10 traj10 (1/10) (1/10) rfl rfl

/-- C7: a `Servo` call with a velocity vector of the right length on a
non-simulated WAM fails with the `NotImplementedError` of wam.py lines
132–134 (the spec's `UnsupportedMode`): no velocity is streamed and no
updated state is produced. -/
theorem servo_unsupported_mode (m : WAMState) (v : JointVector)
    (hlen : v.length = m.numDof) (hsim : m.simulated = false) :
    Servo m v = Except.error ServoError.notImplemented := by
  unfold Servo
  rw [if_neg (by simp [hlen]), hsim]
  rfl

/-- Witness for C7: a 7-DOF non-simulated WAM given a 7-vector. -/
theorem servo_unsupported_mode_witness :
    Servo ⟨false, 7, none⟩ [0, 0, 0, 0, 0, 0, 0] =
      Except.error ServoError.notImplemented :=
  servo_unsupported_mode ⟨false, 7, none⟩ [0, 0, 0, 0, 0, 0, 0]
    (by decide) rfl

/-- C8: a `Servo` call whose velocity vector length differs from the
arm's DOF count fails immediately with the `ValueError` of wam.py lines
126–130, before any state is touched and regardless of mode — the error
is returned to the caller, never retried. -/
theorem servo_wrong_length (m : WAMState) (v : JointVector)
    (hlen : v.length ≠ m.numDof) :
    Servo m v = Except.error ServoError.wrongLength := by
  unfold Servo
  rw [if_pos hlen]

/-- Witness for C8: a 3-vector against a 7-DOF arm is rejected, in
simulated mode too. -/
theorem servo_wrong_length_witness :
    Servo ⟨true, 7, none⟩ [0, 0, 0] = Except.error ServoError.wrongLength :=
  servo_wrong_length ⟨true, 7, none⟩ [0, 0, 0] (by decide)

/-- C9: the forward-simulation phase of `MoveUntilTouch` leaves the
robot's link state unchanged — the state saver restores the DOF values
captured on entry whatever the loop did and whether or not a collision
was found — and the robot's final state is produced solely by executing
the built output trajectory from that restored state. -/
theorem forward_sim_restores_links (envC selfC : JointVector → Bool)
    (r0 : JointVector) (distance max_distance : ℚ) (traj : Trajectory) :
    (forwardSimPhase envC selfC r0 traj).robotDofs = r0 ∧
    (forwardSimPhase envC selfC r0 traj).is_collision =
      (forwardLoop envC selfC traj delta_t r0 []
        (sampleTimes (duration traj) delta_t)).is_collision ∧
    (MoveUntilTouch envC selfC r0 distance max_distance traj).robotFinal =
      execTrajectory r0 (forwardSimPhase envC selfC r0 traj).new_traj := by
  refine ⟨rfl, rfl, ?_⟩
  simp only [MoveUntilTouch]
  split
  · rfl
  · next hlen =>
    have hnil : (forwardSimPhase envC selfC r0 traj).new_traj = [] :=
      List.length_eq_zero.mp (by omega)
    rw [hnil]
    rfl

/-- C10: each `MoveHand` argument left unspecified (`None`) is commanded
to the hand's current DOF value read at call time, and each specified
argument is commanded as given: unspecified joints hold position. -/
theorem movehand_none_holds_position (curr : Preshape)
    (f1 f2 f3 spread : Option ℚ) :
    ((f1 = none → (MoveHand curr f1 f2 f3 spread).f1 = curr.f1) ∧
      ∀ v, f1 = some v → (MoveHand curr f1 f2 f3 spread).f1 = v) ∧
    ((f2 = none → (MoveHand curr f1 f2 f3 spread).f2 = curr.f2) ∧
      ∀ v, f2 = some v → (MoveHand curr f1 f2 f3 spread).f2 = v) ∧
    ((f3 = none → (MoveHand curr f1 f2 f3 spread).f3 = curr.f3) ∧
      ∀ v, f3 = some v → (MoveHand curr f1 f2 f3 spread).f3 = v) ∧
    ((spread = none → (MoveHand curr f1 f2 f3 spread).spread = curr.spread) ∧
      ∀ v, spread = some v →
        (MoveHand curr f1 f2 f3 spread).spread = v) := by
  refine ⟨⟨?_, ?_⟩, ⟨?_, ?_⟩, ⟨?_, ?_⟩, ⟨?_, ?_⟩⟩ <;>
    first
      | (intro h; subst h; rfl)
      | (intro v h; subst h; rfl)

/-- Witness for C10: with fingers 1 and 3 unspecified, they are
commanded to the current values 1 and 3; the specified finger 2 and
spread are commanded to 5 and 6. -/
theorem movehand_none_holds_position_witness :
    (MoveHand ⟨1, 2, 3, 4⟩ none (some 5) none (some 6)).f1 = 1 ∧
    (MoveHand ⟨1, 2, 3, 4⟩ none (some 5) none (some 6)).f2 = 5 ∧
    (MoveHand ⟨1, 2, 3, 4⟩ none (some 5) none (some 6)).f3 = 3 ∧
    (MoveHand ⟨1, 2, 3, 4⟩ none (some 5) none (some 6)).spread = 6 :=
  ⟨(movehand_none_holds_position ⟨1, 2, 3, 4⟩ none (some 5) none
      (some 6)).1.1 rfl,
   (movehand_none_holds_position ⟨1, 2, 3, 4⟩ none (some 5) none
      (some 6)).2.1.2 5 rfl,
   (movehand_none_holds_position ⟨1, 2, 3, 4⟩ none (some 5) none
      (some 6)).2.2.1.1 rfl,
   (movehand_none_holds_position ⟨1, 2, 3, 4⟩ none (some 5) none
      (some 6)).2.2.2.2 6 rfl⟩

end HerbPy
